import Mathlib

/-!
# Verification of the statistical simulation engine

Shallow embedding, in Lean 4, of the simulation services of the
Data_Literacy backend:

* `backend/app/services/sim_service/base.py` (`BaseSimulation`,
  `validate_params`),
* `backend/app/services/sim_service/pi_darts.py` (`PiDartsSimulation.run`),
* `backend/app/services/sim_service/bag_draw.py` (`BagDrawSimulation.run`),
* `stats-learning-backend/app/services/sim_service/clt_machine.py`
  (`CLTSimulation.run`),
* `stats-learning-backend/app/services/sim_service/t_test_one_sample.py`
  (`OneSampleTTestSimulation.run`),
* `stats-learning-backend/app/services/sim_service/z_test_prop.py`
  (`ZTestProportionSimulation.run`).

Python floats are idealised as exact rationals/reals; Python's `round`
(banker's rounding: ties go to the even digit) is modelled exactly by
`pyRoundQ` / `pyRoundR`.  Fallible validation code is modelled with
`Except String`.  The third-party random generator
(`numpy.random.default_rng`) is not part of the repository; it is modelled
as a deterministic stream of rationals computed from the seed, which is the
only property of it the repository relies on (reproducibility under a
fixed seed).
-/

namespace DataLiteracy

/-! ## Python `round` (half-to-even), on ℚ and on ℝ -/

/-- Python's `round(v)` on an exact value: round half to even.
For a tie (`fract v = 1/2`) the nearest even integer is `2 * round (v/2)`;
otherwise it is the ordinary nearest integer `round v`. -/
def pyRoundInt (v : ℚ) : ℤ :=
  if Int.fract v = 1/2 then 2 * round (v/2) else round v

/-- Python's `round(x, d)` on an exact rational. -/
def pyRoundQ (x : ℚ) (d : ℕ) : ℚ :=
  (pyRoundInt (x * 10^d) : ℚ) / 10^d

/-- Python's `round(v)` on an exact real, half to even. -/
noncomputable def pyRoundIntR (v : ℝ) : ℤ :=
  if Int.fract v = 1/2 then 2 * round (v/2) else round v

/-- Python's `round(x, d)` on an exact real. -/
noncomputable def pyRoundR (x : ℝ) (d : ℕ) : ℚ :=
  (pyRoundIntR (x * 10^d) : ℚ) / 10^d

/-! ## Bag-Draw: validation (`bag_draw.py`, lines 42-54)

`run` extracts `colors` (a color→count mapping, here an association list
with integer counts), `draws`, `replacement`, `trials`, and then performs
three checks in order:

```python
if not colors or sum(colors.values()) == 0:
    raise ValueError("Bag must contain at least one item")
if draws <= 0:
    raise ValueError("Must draw at least one item")
if not replacement and draws > sum(colors.values()):
    raise ValueError("Cannot draw more items than in bag without replacement")
```

Note that `trials` is extracted (`params.get('trials', 10000)`) but never
range-checked; the simulation loop then runs `for _ in range(trials)`. -/

/-- `sum(colors.values())`: total number of items in the bag. -/
def bagTotal (colors : List (String × ℤ)) : ℤ :=
  (colors.map (·.2)).sum

/-- The three validation checks of `BagDrawSimulation.run`, in source
order, with the source's error messages. -/
def bagDrawValidate (colors : List (String × ℤ)) (draws : ℤ)
    (replacement : Bool) : Except String Unit :=
  if colors = [] ∨ bagTotal colors = 0 then
    .error "Bag must contain at least one item"
  else if draws ≤ 0 then
    .error "Must draw at least one item"
  else if ¬replacement ∧ draws > bagTotal colors then
    .error "Cannot draw more items than in bag without replacement"
  else
    .ok ()

/-- The simulation loop `for _ in range(trials)` of `BagDrawSimulation.run`:
after successful validation the run performs exactly `trials` trial
iterations, with no upper bound applied to `trials` anywhere. -/
def bagDrawWork (colors : List (String × ℤ)) (draws : ℤ)
    (replacement : Bool) (trials : ℕ) : Except String ℕ := do
  let _ ← bagDrawValidate colors draws replacement
  pure trials

/-! ## Bag-Draw: exact pairwise probabilities (`bag_draw.py`, lines 134-152)

When `replacement` is false and `draws == 2`, the run builds a table
`exact_probs` keyed by `f"{color1} then {color2}"` over all ordered pairs
of colors:

```python
if color1 == color2:
    n1 = colors[color1]
    prob = (n1 / total_items) * ((n1 - 1) / (total_items - 1))
else:
    n1, n2 = colors[color1], colors[color2]
    prob = (n1 / total_items) * (n2 / (total_items - 1))
exact_probs[key] = round(prob, 4)
```
-/

/-- The closed-form probability for the ordered pair `(n1, n2)` of color
counts out of `total` items, exactly as computed in the source (same color
when `same = true`). -/
def bagPairProb (same : Bool) (n1 n2 total : ℤ) : ℚ :=
  if same then ((n1 : ℚ) / total) * (((n1 : ℚ) - 1) / ((total : ℚ) - 1))
  else ((n1 : ℚ) / total) * ((n2 : ℚ) / ((total : ℚ) - 1))

/-- The `exact_probs` table: one entry per ordered pair of colors, in the
iteration order of the mapping, values rounded to 4 decimals. -/
def bagExactProbs (colors : List (String × ℤ)) : List (String × ℚ) :=
  colors.flatMap (fun c1 =>
    colors.map (fun c2 =>
      (c1.1 ++ " then " ++ c2.1,
       pyRoundQ (bagPairProb (c1.1 = c2.1) c1.2 c2.2 (bagTotal colors)) 4)))

/-- The gate on the exact table (`if not replacement and draws == 2`):
`exact_probabilities` is the table when the gate holds and null otherwise. -/
def bagExactProbsOpt (draws : ℤ) (replacement : Bool)
    (colors : List (String × ℤ)) : Option (List (String × ℚ)) :=
  if ¬replacement ∧ draws = 2 then some (bagExactProbs colors) else none

/-! ## ResultEnvelope shapes: `meta` and `metrics` keys of each variant

Each `run` ends in a single `SimulationResult(meta=..., series=...,
metrics=...)` construction with dictionary literals; the key sets below are
transcribed from those literals. -/

/-- `pi_darts.py` lines 104-108: `meta={'simulation': 'pi_darts',
'trials': trials, 'seed': params.get('seed')}`. -/
def piDartsMetaKeys : List String := ["simulation", "trials", "seed"]

/-- `pi_darts.py` metrics dictionary keys. -/
def piDartsMetricsKeys : List String :=
  ["pi_estimate", "actual_pi", "absolute_error", "relative_error_pct",
   "points_inside", "points_total", "proportion_inside",
   "confidence_interval_95"]

/-- `clt_machine.py` lines 116-122: `meta={'simulation': 'clt',
'distribution': ..., 'sample_size': ..., 'num_samples': ...,
'dist_params': ...}`. -/
def cltMetaKeys : List String :=
  ["simulation", "distribution", "sample_size", "num_samples", "dist_params"]

/-- `clt_machine.py` metrics dictionary keys. -/
def cltMetricsKeys : List String :=
  ["theoretical_mean", "observed_mean", "theoretical_se", "observed_se",
   "se_error_pct", "normality_test", "percentiles"]

/-- `t_test_one_sample.py` lines 148-153: `meta={'test':
'one_sample_t_test', 'alternative': ..., 'alpha': ...,
'degrees_of_freedom': ...}`. -/
def tTestMetaKeys : List String :=
  ["test", "alternative", "alpha", "degrees_of_freedom"]

/-- `t_test_one_sample.py` metrics dictionary keys. -/
def tTestMetricsKeys : List String :=
  ["sample_mean", "sample_std", "sample_size", "hypothesized_mean",
   "standard_error", "t_statistic", "degrees_of_freedom", "p_value",
   "decision", "reject_null", "rejection_region", "confidence_interval",
   "effect_size", "power", "descriptive_stats"]

/-- `z_test_prop.py` lines 126-130: `meta={'test': 'one_proportion_z_test',
'alternative': ..., 'alpha': ...}`. -/
def zTestMetaKeys : List String := ["test", "alternative", "alpha"]

/-- `z_test_prop.py` metrics dictionary keys. -/
def zTestMetricsKeys : List String :=
  ["sample_proportion", "hypothesized_proportion", "sample_size",
   "successes", "z_statistic", "p_value", "standard_error", "decision",
   "reject_null", "rejection_region", "confidence_interval", "effect_size",
   "power", "conditions"]

/-- `bag_draw.py` meta dictionary keys. -/
def bagDrawMetaKeys : List String :=
  ["simulation", "bag_contents", "total_items", "draws", "replacement",
   "trials"]

/-- `bag_draw.py` metrics dictionary keys. -/
def bagDrawMetricsKeys : List String :=
  ["first_draw_probabilities", "special_events", "exact_probabilities",
   "unique_sequences_found", "most_likely_sequence"]

/-! ## Shared parameter validator (`base.py`, `validate_params`)

```python
for param_name, (min_val, max_val) in constraints.items():
    if param_name in params:
        value = params[param_name]
        if value < min_val or value > max_val:
            raise ValueError(...)
```

Each variant calls it with the parameter present in `params`, so one call
reduces to a range check per constrained parameter. -/

/-- One range check of `validate_params` for a parameter that is present. -/
def validateParam (name : String) (value lo hi : ℤ) : Except String Unit :=
  if value < lo ∨ value > hi then
    .error (name ++ " out of range")
  else
    .ok ()

/-- Configured ceiling `MAX_SIMULATION_TRIALS` (config.py line 113,
default 2000000). -/
def MAX_SIMULATION_TRIALS : ℤ := 2000000

/-- Configured ceiling `MAX_SIMULATION_REPLICATES` (config.py line 114,
default 10000). -/
def MAX_SIMULATION_REPLICATES : ℤ := 10000

/-- `pi_darts.py` lines 47-51: `validate_params({'trials': trials},
{'trials': (1, settings.MAX_SIMULATION_TRIALS)})`.  `batch_size` is not
constrained, but the work is bounded by `trials`. -/
def piDartsValidate (trials maxTrials : ℤ) : Except String Unit :=
  validateParam "trials" trials 1 maxTrials

/-- `clt_machine.py` lines 50-54: constraints
`{'sample_size': (1, 1000), 'num_samples': (1, MAX_SIMULATION_REPLICATES)}`
checked in insertion order; the first violation raises. -/
def cltValidate (sampleSize numSamples maxReplicates : ℤ) :
    Except String Unit :=
  match validateParam "sample_size" sampleSize 1 1000 with
  | .error e => .error e
  | .ok _ => validateParam "num_samples" numSamples 1 maxReplicates

/-! ## Pi-Estimation: batching loop and running estimates
(`pi_darts.py`, lines 58-91)

```python
for batch_start in range(0, trials, batch_size):
    batch_end = min(batch_start + batch_size, trials)
    ...
    batch_inside = np.sum(r_squared <= 1.0)
    inside_count += batch_inside
    ...
    if (batch_end % 1000 == 0) or (batch_end == trials):
        pi_estimate = 4.0 * inside_count / batch_end
        running_estimates.append({'n': batch_end, 'estimate': pi_estimate,
                                  'error': abs(pi_estimate - np.pi)})
```

The random points are abstracted as a stream `pts : ℕ → Bool` giving the
inside/outside flag of the i-th generated point (`r_squared <= 1.0`); the
loop only ever uses the per-batch count of inside points.  The `series`
output keeps `running_estimates[-50:]`. -/

/-- Number of inside points among the first `n` generated points
(the accumulated value of `inside_count` after `n` points). -/
def countInside (pts : ℕ → Bool) (n : ℕ) : ℕ :=
  (List.range n).countP pts

/-- The batch starts produced by `range(0, trials, batch_size)`:
`0, bs, 2*bs, ...`, one per batch, `⌈trials / bs⌉` of them. -/
def piBatchStarts (trials bs : ℕ) : List ℕ :=
  (List.range ((trials + bs - 1) / bs)).map (· * bs)

/-- The `batch_end` values, in loop order. -/
def piBatchEnds (trials bs : ℕ) : List ℕ :=
  (piBatchStarts trials bs).map (fun s => min (s + bs) trials)

/-- The checkpoint trigger: `(batch_end % 1000 == 0) or (batch_end ==
trials)`. -/
def piCheckpointTrigger (trials e : ℕ) : Bool :=
  e % 1000 = 0 ∨ e = trials

/-- One iteration of the simulation loop of `PiDartsSimulation.run` at
batch start `s`: count the inside points of the batch
(`batch_inside = np.sum(r_squared <= 1.0)`), accumulate `inside_count`, and
append a running estimate when the trigger fires. -/
def piStep (pts : ℕ → Bool) (trials bs : ℕ) (acc : ℕ × List (ℕ × ℚ))
    (s : ℕ) : ℕ × List (ℕ × ℚ) :=
  let e := min (s + bs) trials
  let batchInside := (List.range (e - s)).countP (fun i => pts (s + i))
  let inside := acc.1 + batchInside
  let ests :=
    if piCheckpointTrigger trials e then acc.2 ++ [(e, 4 * (inside : ℚ) / e)]
    else acc.2
  (inside, ests)

/-- The simulation loop of `PiDartsSimulation.run`, restricted to the
state it threads: the accumulated `inside_count` and the
`running_estimates` list (each entry as `(n, estimate)`; the `error` field
is a function of the estimate, see `piCheckpointError`). -/
def piLoop (pts : ℕ → Bool) (trials bs : ℕ) : ℕ × List (ℕ × ℚ) :=
  (piBatchStarts trials bs).foldl (piStep pts trials bs) (0, [])

/-- The recorded running-estimate entries, in order. -/
def piRunningEstimates (pts : ℕ → Bool) (trials bs : ℕ) : List (ℕ × ℚ) :=
  (piLoop pts trials bs).2

/-- The `n` values at which the loop records a checkpoint: the batch ends
that satisfy the trigger, in loop order. -/
def piCheckpointNs (trials bs : ℕ) : List ℕ :=
  (piBatchEnds trials bs).filter (fun e => piCheckpointTrigger trials e)

/-- The `error` field recorded with each checkpoint:
`abs(pi_estimate - np.pi)`. -/
noncomputable def piCheckpointError (estimate : ℚ) : ℝ :=
  |(estimate : ℝ) - Real.pi|

/-- Python's `running_estimates[-50:]`: the last `k` elements of a list
(all of it when shorter). -/
def lastN {α : Type} (l : List α) (k : ℕ) : List α :=
  l.drop (l.length - k)

/-- The `running_estimates` entry of the returned `series`
(`pi_darts.py` line 111). -/
def piSeriesRunningEstimates (pts : ℕ → Bool) (trials bs : ℕ) :
    List (ℕ × ℚ) :=
  lastN (piRunningEstimates pts trials bs) 50

/-! ## One-sample t-test (`t_test_one_sample.py`)

Lines 90-98:

```python
se = sample_std / np.sqrt(n)
if se > 0:
    t_stat = (sample_mean - mu0) / se
else:
    t_stat = np.inf if sample_mean != mu0 else 0
```

`np.inf` is modelled as `⊤ : EReal` (and `-np.inf` would be `⊥`). -/

/-- Lines 94-98: the t-statistic as a function of the standard error. -/
noncomputable def tStatCore (m mu0 se : ℝ) : EReal :=
  if 0 < se then (((m - mu0) / se : ℝ) : EReal)
  else if m ≠ mu0 then ⊤ else 0

/-- Lines 90-98: the reported t-statistic from the sample mean, the
hypothesized mean, the sample standard deviation and the sample size
(`se = sample_std / np.sqrt(n)`). -/
noncomputable def tStatistic (sampleMean mu0 sampleStd : ℚ) (n : ℕ) : EReal :=
  tStatCore (sampleMean : ℝ) (mu0 : ℝ) ((sampleStd : ℝ) / Real.sqrt n)

/-- The recognized parameters of `OneSampleTTestSimulation.run` that select
between raw data and summary statistics.  `none` models both an absent key
and an explicit `None` value (`params.get` returns `None` in both cases). -/
structure TTestParams where
  data : Option (List ℚ)
  sample_mean : Option ℚ
  sample_std : Option ℚ
  n : Option ℤ

/-- `np.mean(data)`. -/
def listMeanQ (d : List ℚ) : ℚ := d.sum / d.length

/-- `np.std(data, ddof=1)`: square root of the sum of squared deviations
divided by `n - 1`. -/
noncomputable def sampleStdDdof1 (d : List ℚ) : ℝ :=
  Real.sqrt (((d.map (fun x => ((x : ℝ) - (listMeanQ d : ℝ))^2)).sum) /
    ((d.length : ℝ) - 1))

/-- Lines 58-79: obtain `(sample_mean, sample_std, n)` either from raw
`data` or from the three summary parameters; raise when `data` is absent
and any of the three is absent/None. -/
noncomputable def tTestExtract (p : TTestParams) : Except String (ℝ × ℝ × ℤ) :=
  match p.data with
  | some d => .ok ((listMeanQ d : ℝ), sampleStdDdof1 d, (d.length : ℤ))
  | none =>
    match p.sample_mean, p.sample_std, p.n with
    | some m, some s, some n => .ok ((m : ℝ), (s : ℝ), n)
    | _, _, _ =>
      .error "Must provide either 'data' or all of: sample_mean, sample_std, n"

/-- Lines 52-98 of `OneSampleTTestSimulation.run`, up to the computation of
the t-statistic: extraction, then the validations `n <= 1` and
`sample_std < 0` (lines 82-85), then the statistic. -/
noncomputable def tTestRun (p : TTestParams) (mu0 : ℚ) : Except String EReal := do
  let (m, s, n) ← tTestExtract p
  if n ≤ 1 then .error "Sample size must be greater than 1"
  else if s < 0 then .error "Standard deviation cannot be negative"
  else .ok (tStatCore m (mu0 : ℝ) (s / Real.sqrt ((n.toNat : ℕ) : ℝ)))

/-! ## One-proportion z-test: Wilson score interval
(`z_test_prop.py`, lines 100-106)

```python
z_alpha = stats.norm.ppf(1 - alpha/2)
denominator = 1 + z_alpha**2 / n
center = (p_hat + z_alpha**2 / (2*n)) / denominator
margin = z_alpha * np.sqrt(p_hat*(1-p_hat)/n + z_alpha**2/(4*n**2)) / denominator
ci_lower = max(0, center - margin)
ci_upper = min(1, center + margin)
```

`z_alpha = Φ⁻¹(1 - alpha/2)` is kept as a parameter `z`; for every
`alpha < 1` it satisfies `1 - alpha/2 > 1/2`, hence `z ≥ 0`. -/

/-- `p_hat = successes / n` (line 64). -/
def pHat (successes n : ℕ) : ℚ := (successes : ℚ) / n

/-- Wilson interval center. -/
noncomputable def wilsonCenter (successes n : ℕ) (z : ℝ) : ℝ :=
  ((pHat successes n : ℝ) + z^2 / (2*n)) / (1 + z^2 / n)

/-- Wilson interval margin. -/
noncomputable def wilsonMargin (successes n : ℕ) (z : ℝ) : ℝ :=
  z * Real.sqrt ((pHat successes n : ℝ) * (1 - (pHat successes n : ℝ)) / n
      + z^2 / (4*(n:ℝ)^2)) / (1 + z^2 / n)

/-- `ci_lower = max(0, center - margin)`. -/
noncomputable def wilsonLower (successes n : ℕ) (z : ℝ) : ℝ :=
  max 0 (wilsonCenter successes n z - wilsonMargin successes n z)

/-- `ci_upper = min(1, center + margin)`. -/
noncomputable def wilsonUpper (successes n : ℕ) (z : ℝ) : ℝ :=
  min 1 (wilsonCenter successes n z + wilsonMargin successes n z)

/-! ## CLT sampler (`clt_machine.py`)

Lines 57-65 (uniform branch): `true_mean = (a + b) / 2`,
`true_var = (b - a)**2 / 12`.  Line 91:
`theoretical_se = np.sqrt(true_var / sample_size)`.  Line 124: the series
entry `sample_means.tolist()[:1000]`.  Metrics (lines 135, 137) round the
two theoretical values to 6 decimals. -/

/-- `true_mean` of the uniform branch. -/
def cltUniformMean (a b : ℚ) : ℚ := (a + b) / 2

/-- `true_var` of the uniform branch. -/
def cltUniformVar (a b : ℚ) : ℚ := (b - a)^2 / 12

/-- `theoretical_se = np.sqrt(true_var / sample_size)`. -/
noncomputable def cltTheoreticalSE (trueVar : ℚ) (sampleSize : ℕ) : ℝ :=
  Real.sqrt ((trueVar : ℝ) / sampleSize)

/-- The `theoretical_mean` metric (line 135). -/
def cltTheoreticalMeanMetric (trueMean : ℚ) : ℚ := pyRoundQ trueMean 6

/-- The `theoretical_se` metric (line 137). -/
noncomputable def cltTheoreticalSEMetric (trueVar : ℚ) (sampleSize : ℕ) : ℚ :=
  pyRoundR (cltTheoreticalSE trueVar sampleSize) 6

/-- Line 88: `sample_means = np.mean(samples, axis=1)`, one mean per row of
the `num_samples × sample_size` draw matrix. -/
def cltSampleMeans (samples : List (List ℚ)) : List ℚ :=
  samples.map listMeanQ

/-- Line 124: the `sample_means` entry of `series`, truncated to 1000. -/
def cltSeriesSampleMeans (samples : List (List ℚ)) : List ℚ :=
  (cltSampleMeans samples).take 1000

/-! ## Random engine (`base.py`, `BaseSimulation.__init__`)

```python
def __init__(self, seed: Optional[int] = None):
    self.rng = np.random.default_rng(seed)
```

The generator itself is third-party (numpy PCG64) and outside the
repository; the repository relies only on it being a deterministic stream
fixed by the seed and private to the instance.  It is modelled as a pure
stream of rationals in `[0, 1)` computed from the seed by a fixed mixing
function; every draw operation of a variant reads the stream at an index
determined solely by the draw's position in the run. -/

/-- Deterministic model of `np.random.default_rng(seed)`: the `i`-th unit
uniform drawn by the instance. -/
def mkRng (seed : ℕ) : ℕ → ℚ := fun i =>
  ((((seed + 1) * 6364136223846793005 + i * 1442695040888963407) % 2^64 : ℕ) : ℚ)
    / (2^64 : ℚ)

/-- The inside/outside flag stream of Pi-Estimation under a generator:
point `i` uses draws `2i` (x) and `2i+1` (y) and is inside iff
`x² + y² ≤ 1` (`pi_darts.py` lines 66-76). -/
def ptsOfRng (rng : ℕ → ℚ) : ℕ → Bool := fun i =>
  decide (rng (2*i) ^ 2 + rng (2*i+1) ^ 2 ≤ 1)

/-- Pi-Estimation `pi_estimate` metric (line 94 and 117):
`round(4.0 * inside_count / trials, 6)`. -/
def piFinalEstimate (pts : ℕ → Bool) (trials : ℕ) : ℚ :=
  pyRoundQ (4 * (countInside pts trials : ℚ) / trials) 6

/-- The draw matrix of the CLT uniform branch under a generator
(`rng.uniform(a, b, size=(num_samples, sample_size))`, line 65): entry
`(i, j)` is `a + (b - a) · u` with `u` the next unit uniform. -/
def cltSamplesOf (rng : ℕ → ℚ) (a b : ℚ) (numSamples sampleSize : ℕ) :
    List (List ℚ) :=
  (List.range numSamples).map (fun i =>
    (List.range sampleSize).map (fun j => a + (b - a) * rng (i * sampleSize + j)))

/-- The ordered outcome sequences of Bag-Draw under a generator
(`bag_draw.py` lines 62-77): trial `t`, position `j` takes the bag item
selected by draw `t·draws + j`. -/
def bagOutcomesOf (rng : ℕ → ℚ) (bag : List String) (draws trials : ℕ) :
    List (List String) :=
  (List.range trials).map (fun t =>
    (List.range draws).map (fun j =>
      bag.getD (Int.toNat ⌊rng (t * draws + j) * (bag.length : ℚ)⌋) ""))

/-! ## Helper lemmas -/

/-- Counting inside points over `[0, s + k)` splits at `s`. -/
lemma countInside_add (pts : ℕ → Bool) (s k : ℕ) :
    countInside pts (s + k) =
      countInside pts s + (List.range k).countP (fun i => pts (s + i)) := by
  unfold countInside
  rw [List.range_add s k, List.countP_append, List.countP_map]
  rfl

/-- Closed form of the Pi-Estimation loop after `m` batches: the
accumulated `inside_count` is the number of inside points among the first
`min (m·bs) trials` points, and the recorded running estimates are exactly
the triggered batch ends, each paired with `4·inside/n`. -/
lemma piLoop_closed (pts : ℕ → Bool) (trials bs : ℕ) (m : ℕ) :
    ((List.range m).map (· * bs)).foldl (piStep pts trials bs) (0, []) =
      (countInside pts (min (m * bs) trials),
       ((((List.range m).map (· * bs)).map (fun s => min (s + bs) trials)).filter
          (fun e => piCheckpointTrigger trials e)).map
          (fun e => (e, 4 * (countInside pts e : ℚ) / e))) := by
  induction m with
  | zero => simp [countInside]
  | succ m ih =>
    rw [List.range_succ, List.map_append, List.foldl_append, ih]
    simp only [List.map_cons, List.map_nil, List.foldl_cons, List.foldl_nil,
      List.filter_append, List.map_append]
    have hsucc : (m + 1) * bs = m * bs + bs := by ring
    have hin : countInside pts (min (m * bs) trials) +
        (List.range (min (m * bs + bs) trials - m * bs)).countP
          (fun i => pts (m * bs + i)) =
        countInside pts (min (m * bs + bs) trials) := by
      rcases le_or_lt trials (m * bs) with h | h
      · have h1 : min (m * bs) trials = trials := min_eq_right h
        have h2 : min (m * bs + bs) trials = trials := min_eq_right (by omega)
        have h3 : min (m * bs + bs) trials - m * bs = 0 := by omega
        have h4 : trials - m * bs = 0 := by omega
        simp [h1, h2, h3, h4]
      · have h1 : min (m * bs) trials = m * bs := min_eq_left h.le
        have hse : m * bs ≤ min (m * bs + bs) trials := le_min (by omega) h.le
        rw [h1, ← countInside_add]
        congr 1
        omega
    unfold piStep
    simp only [hsucc, hin]
    by_cases htrig : piCheckpointTrigger trials (min (m * bs + bs) trials)
    · simp [htrig]
    · simp [htrig]

/-- The recorded running estimates are exactly the triggered batch ends
paired with `4·inside/n`. -/
lemma piRunningEstimates_eq (pts : ℕ → Bool) (trials bs : ℕ) :
    piRunningEstimates pts trials bs =
      (piCheckpointNs trials bs).map
        (fun e => (e, 4 * (countInside pts e : ℚ) / e)) := by
  unfold piRunningEstimates piLoop piBatchStarts piCheckpointNs piBatchEnds
    piBatchStarts
  rw [piLoop_closed]

/-- The final batch end is `trials`, and it always fires the trigger, so a
checkpoint at `n = trials` is always recorded (for a nonempty run). -/
lemma trials_mem_piCheckpointNs (trials bs : ℕ) (htr : 0 < trials)
    (hbs : 0 < bs) : trials ∈ piCheckpointNs trials bs := by
  have hm : 1 ≤ (trials + bs - 1) / bs := (Nat.one_le_div_iff hbs).mpr (by omega)
  have hceil : trials ≤ ((trials + bs - 1) / bs) * bs := by
    have hdm := Nat.div_add_mod (trials + bs - 1) bs
    have hlt : (trials + bs - 1) % bs < bs := Nat.mod_lt _ hbs
    set q := (trials + bs - 1) / bs with hq
    set r := (trials + bs - 1) % bs with hr
    have : bs * q = trials + bs - 1 - r := by omega
    calc trials ≤ bs * q := by omega
    _ = q * bs := Nat.mul_comm bs q
  unfold piCheckpointNs piBatchEnds piBatchStarts
  rw [List.mem_filter]
  constructor
  · rw [List.map_map, List.mem_map]
    refine ⟨(trials + bs - 1) / bs - 1, List.mem_range.mpr (by omega), ?_⟩
    simp only [Function.comp_apply]
    have : ((trials + bs - 1) / bs - 1) * bs + bs = ((trials + bs - 1) / bs) * bs := by
      have h1 : (trials + bs - 1) / bs - 1 + 1 = (trials + bs - 1) / bs := by omega
      calc ((trials + bs - 1) / bs - 1) * bs + bs
          = ((trials + bs - 1) / bs - 1 + 1) * bs := by ring
      _ = ((trials + bs - 1) / bs) * bs := by rw [h1]
    rw [this]
    omega
  · unfold piCheckpointTrigger
    simp

/-- `lastN` keeps at most `k` elements. -/
lemma lastN_length_le {α : Type} (l : List α) (k : ℕ) :
    (lastN l k).length ≤ k := by
  unfold lastN
  rw [List.length_drop]
  omega

/-- `lastN` is a suffix. -/
lemma lastN_suffix {α : Type} (l : List α) (k : ℕ) : lastN l k <:+ l :=
  List.drop_suffix _ _

/-! ## Claim theorems -/

/-- C1, counterexample: the CLT sampler's `meta` mapping does not contain
the key `"seed"` (its keys are fixed by the dictionary literal at
`clt_machine.py` lines 116-122), so for a run with a supplied seed the
returned envelope's `meta` does not include that seed, contrary to the
claim that this holds for every simulation variant. -/
theorem claim_C1_counterexample : "seed" ∉ cltMetaKeys := by decide

/-- C1, amended: every variant's `metrics` mapping is non-empty, and
Pi-Estimation's `meta` echoes the supplied seed and `trials`; but the CLT,
t-test, z-test and Bag-Draw variants omit `"seed"` from `meta` (they echo
only other input parameters). -/
theorem claim_C1_amended :
    piDartsMetricsKeys ≠ [] ∧ cltMetricsKeys ≠ [] ∧ tTestMetricsKeys ≠ [] ∧
    zTestMetricsKeys ≠ [] ∧ bagDrawMetricsKeys ≠ [] ∧
    "seed" ∈ piDartsMetaKeys ∧ "trials" ∈ piDartsMetaKeys ∧
    "seed" ∉ cltMetaKeys ∧ "seed" ∉ tTestMetaKeys ∧ "seed" ∉ zTestMetaKeys ∧
    "seed" ∉ bagDrawMetaKeys := by decide

/-- C2, counterexample: with `sample_mean = 1 < mu0 = 2` and
`sample_std = 0` (n = 4), the claim asserts the t-statistic is `-∞`, but
`t_test_one_sample.py` line 98 (`t_stat = np.inf if sample_mean != mu0
else 0`) yields `+∞` regardless of the sign of `mean - mu0`. -/
theorem claim_C2_counterexample :
    tStatistic 1 2 0 4 = ⊤ ∧ (⊤ : EReal) ≠ ⊥ := by
  constructor
  · unfold tStatistic tStatCore
    norm_num
  · exact (bot_lt_top (α := EReal)).ne'

/-- C2, amended: when the standard error `sample_std/√n` is positive the
t-statistic is `(mean - mu0)/SE`; when `sample_std = 0` it is `+∞`
whenever `mean ≠ mu0` — in either direction — and `0` when `mean = mu0`.
(The claim's `-∞` case does not exist in the code.) -/
theorem claim_C2_amended (m mu0 s : ℚ) (n : ℕ) (hn : 0 < n) (hs : 0 ≤ s) :
    (0 < s → tStatistic m mu0 s n =
      ((((m : ℝ) - (mu0 : ℝ)) / ((s : ℝ) / Real.sqrt n) : ℝ) : EReal)) ∧
    (s = 0 → m ≠ mu0 → tStatistic m mu0 s n = ⊤) ∧
    (s = 0 → m = mu0 → tStatistic m mu0 s n = 0) := by
  have hsq : (0:ℝ) < Real.sqrt n :=
    Real.sqrt_pos.mpr (by exact_mod_cast hn)
  refine ⟨fun h => ?_, fun h hne => ?_, fun h he => ?_⟩
  · have hse : (0:ℝ) < (s : ℝ) / Real.sqrt n :=
      div_pos (by exact_mod_cast h) hsq
    unfold tStatistic tStatCore
    rw [if_pos hse]
  · subst h
    have hse : ((0:ℚ) : ℝ) / Real.sqrt n = 0 := by norm_num
    have hne' : (m : ℝ) ≠ (mu0 : ℝ) := by exact_mod_cast hne
    unfold tStatistic tStatCore
    rw [hse, if_neg (lt_irrefl 0), if_pos hne']
  · subst h; subst he
    have hse : ((0:ℚ) : ℝ) / Real.sqrt n = 0 := by norm_num
    unfold tStatistic tStatCore
    rw [hse, if_neg (lt_irrefl 0), if_neg (by simp)]

/-- C2, witness: at `mean = mu0 = 3`, `std = 0`, `n = 5` the amended
theorem applies and gives a zero t-statistic. -/
theorem claim_C2_witness :
    0 < 5 ∧ (0:ℚ) ≤ 0 ∧ tStatistic 3 3 0 5 = 0 :=
  ⟨by decide, by decide, (claim_C2_amended 3 3 0 5 (by decide) (by decide)).2.2 rfl rfl⟩

/-- C4, counterexample: Bag-Draw's validation never bounds `trials`:
with a one-color bag and `trials = 20000000` (ten times the configured
`MAX_SIMULATION_TRIALS`), validation passes and the run performs
20000000 trial iterations. -/
theorem claim_C4_counterexample :
    bagDrawWork [("red", 5)] 2 false 20000000 = .ok 20000000 ∧
    MAX_SIMULATION_TRIALS < 20000000 :=
  ⟨rfl, by decide⟩

/-- C4, amended: Pi-Estimation's `trials` and the CLT sampler's
`sample_size` and `num_samples` are validated against their configured
ranges before use, but Bag-Draw's `trials` is used to drive its simulation
loop with no maximum applied (its validation checks only the bag, `draws ≥
1`, and the without-replacement bound). -/
theorem claim_C4_amended :
    (∀ trials maxTrials : ℤ,
      piDartsValidate trials maxTrials = .ok () ↔
        1 ≤ trials ∧ trials ≤ maxTrials) ∧
    (∀ sampleSize numSamples maxReplicates : ℤ,
      cltValidate sampleSize numSamples maxReplicates = .ok () ↔
        (1 ≤ sampleSize ∧ sampleSize ≤ 1000) ∧
        (1 ≤ numSamples ∧ numSamples ≤ maxReplicates)) ∧
    (∀ (colors : List (String × ℤ)) (draws : ℤ) (replacement : Bool)
        (trials : ℕ),
      bagDrawValidate colors draws replacement = .ok () →
        bagDrawWork colors draws replacement trials = .ok trials) := by
  refine ⟨fun trials maxTrials => ?_, fun ss ns mr => ?_,
    fun colors draws replacement trials h => ?_⟩
  · unfold piDartsValidate validateParam
    split_ifs with h
    · simp only [reduceCtorEq, false_iff]
      omega
    · simp only [true_iff]
      omega
  · unfold cltValidate validateParam
    split_ifs with h1 h2
    · simp only [reduceCtorEq, false_iff]
      intro ⟨⟨a, b⟩, _⟩
      omega
    · simp only [reduceCtorEq, false_iff]
      intro ⟨_, c, d⟩
      omega
    · simp only [true_iff]
      omega
  · unfold bagDrawWork
    rw [h]
    rfl

/-- C4, witness: the amended theorem's Bag-Draw conjunct at a valid bag
and a billion trials. -/
theorem claim_C4_witness :
    bagDrawValidate [("red", 5)] 2 false = .ok () ∧
    bagDrawWork [("red", 5)] 2 false 1000000000 = .ok 1000000000 :=
  ⟨rfl, claim_C4_amended.2.2 [("red", 5)] 2 false 1000000000 rfl⟩

/-- C6: whenever `draws = 2` and `replacement` is false, Bag-Draw's run
computes the exact-probability table, which contains, for every ordered
pair of colors in the bag, the key `"{c1} then {c2}"` mapped to the
hypergeometric closed form (same color: `(n1/total)((n1-1)/(total-1))`,
different colors: `(n1/total)(n2/(total-1))`) rounded to 4 decimals; and
for the bag `{red: 1, blue: 1}` both `"red then blue"` and
`"blue then red"` equal `0.5`. -/
theorem claim_C6 :
    (∀ (colors : List (String × ℤ)) (c1 c2 : String) (n1 n2 : ℤ),
      (c1, n1) ∈ colors → (c2, n2) ∈ colors →
      bagExactProbsOpt 2 false colors = some (bagExactProbs colors) ∧
      (c1 ++ " then " ++ c2,
        pyRoundQ (bagPairProb (c1 = c2) n1 n2 (bagTotal colors)) 4)
          ∈ bagExactProbs colors) ∧
    ("red then blue", 1/2) ∈ bagExactProbs [("red", 1), ("blue", 1)] ∧
    ("blue then red", 1/2) ∈ bagExactProbs [("red", 1), ("blue", 1)] := by
  refine ⟨fun colors c1 c2 n1 n2 h1 h2 => ⟨by simp [bagExactProbsOpt], ?_⟩,
    ?_, ?_⟩
  · unfold bagExactProbs
    exact List.mem_flatMap.mpr ⟨(c1, n1), h1, List.mem_map.mpr ⟨(c2, n2), h2, rfl⟩⟩
  · simp only [bagExactProbs, List.flatMap_cons, List.map_cons, List.map_nil,
      List.flatMap_nil, List.append_nil, List.nil_append, List.cons_append,
      List.mem_cons, List.mem_singleton, Prod.mk.injEq]
    right; left
    refine ⟨by decide, ?_⟩
    have hd : (decide (("red":String) = "blue")) = false := by decide
    rw [hd]
    norm_num [bagPairProb, bagTotal, pyRoundQ, pyRoundInt, Int.fract]
  · simp only [bagExactProbs, List.flatMap_cons, List.map_cons, List.map_nil,
      List.flatMap_nil, List.append_nil, List.nil_append, List.cons_append,
      List.mem_cons, List.mem_singleton, Prod.mk.injEq]
    right; right; left
    refine ⟨by decide, ?_⟩
    have hd : (decide (("blue":String) = "red")) = false := by decide
    rw [hd]
    norm_num [bagPairProb, bagTotal, pyRoundQ, pyRoundInt, Int.fract]

/-- C6, witness: the general conjunct applied to the bag
`{red: 1, blue: 1}` and the ordered pair (red, blue). -/
theorem claim_C6_witness :
    ("red", (1:ℤ)) ∈ [("red", (1:ℤ)), ("blue", 1)] ∧
    ("red then blue",
      pyRoundQ (bagPairProb ("red" = "blue") 1 1
        (bagTotal [("red", 1), ("blue", 1)])) 4)
      ∈ bagExactProbs [("red", 1), ("blue", 1)] :=
  ⟨by decide,
    (claim_C6.1 [("red", 1), ("blue", 1)] "red" "blue" 1 1 (by decide)
      (by decide)).2⟩

/-- C8: Bag-Draw's validation fails exactly when the bag total is zero,
or `draws < 1`, or `replacement` is false and `draws` exceeds the total;
every other parameter combination passes all three checks. -/
theorem claim_C8 (colors : List (String × ℤ)) (draws : ℤ)
    (replacement : Bool) :
    bagDrawValidate colors draws replacement = .ok () ↔
      bagTotal colors ≠ 0 ∧ 1 ≤ draws ∧
        (replacement = false → draws ≤ bagTotal colors) := by
  unfold bagDrawValidate
  split_ifs with h1 h2 h3
  · have htot : bagTotal colors = 0 := by
      rcases h1 with h | h
      · rw [h]; rfl
      · exact h
    simp [htot]
  · simp only [reduceCtorEq, false_iff]
    intro ⟨_, hd, _⟩
    omega
  · simp only [reduceCtorEq, false_iff]
    intro ⟨_, _, hr⟩
    rcases h3 with ⟨hrep, hgt⟩
    have : replacement = false := by
      cases replacement
      · rfl
      · exact absurd rfl hrep
    have := hr this
    omega
  · simp only [true_iff]
    push_neg at h1
    refine ⟨h1.2, by omega, fun hrep => ?_⟩
    by_contra hgt
    exact h3 ⟨by rw [hrep]; exact Bool.false_ne_true, by omega⟩

/-- C10: the one-sample t-test raises the value error of
`t_test_one_sample.py` line 76 — before any statistic is computed —
whenever `data` is absent and any of `sample_mean`, `sample_std`, `n` is
absent or `None`; no envelope is produced. -/
theorem claim_C10 (p : TTestParams) (mu0 : ℚ) (hd : p.data = none)
    (h : p.sample_mean = none ∨ p.sample_std = none ∨ p.n = none) :
    tTestRun p mu0 =
      .error "Must provide either 'data' or all of: sample_mean, sample_std, n" := by
  have hextract : tTestExtract p =
      .error "Must provide either 'data' or all of: sample_mean, sample_std, n" := by
    unfold tTestExtract
    rw [hd]
    rcases h with h | h | h
    · rw [h]
    · rw [h]
      cases p.sample_mean <;> cases p.n <;> rfl
    · rw [h]
      cases p.sample_mean <;> cases p.sample_std <;> rfl
  unfold tTestRun
  rw [hextract]
  rfl

/-- C10, witness: summary statistics with `sample_std` missing (and no
`data`) are rejected. -/
theorem claim_C10_witness :
    (TTestParams.mk none (some 3) none (some 10)).data = none ∧
    tTestRun (TTestParams.mk none (some 3) none (some 10)) 0 =
      .error "Must provide either 'data' or all of: sample_mean, sample_std, n" :=
  ⟨rfl, claim_C10 (TTestParams.mk none (some 3) none (some 10)) 0 rfl
    (Or.inr (Or.inl rfl))⟩

/-- C3, counterexample: with `trials = 3000` and `batch_size = 1500` the
batch ends are 1500 and 3000.  The cumulative processed count crosses the
multiples 1000 (first batch) and 2000 (second batch), but the recorded
checkpoints are `[3000]` only: the trigger `batch_end % 1000 == 0 or
batch_end == trials` fires at neither crossing's batch end 1500, so the
crossing of 1000 produces no checkpoint, contrary to the claim. -/
theorem claim_C3_counterexample :
    piBatchEnds 3000 1500 = [1500, 3000] ∧
    (piRunningEstimates (fun _ => true) 3000 1500).map Prod.fst = [3000] := by
  refine ⟨by decide, ?_⟩
  rw [piRunningEstimates_eq, List.map_map]
  decide

/-- C3, amended: a checkpoint `{n, estimate = 4·inside/n}` is recorded
exactly at the batch ends `e` with `e % 1000 == 0` or `e == trials` (so a
checkpoint is always recorded when the count reaches `trials`, but a batch
end that merely crosses a multiple of 1000 without landing on one records
nothing), and the returned series retains only the last 50 checkpoints. -/
theorem claim_C3_amended (pts : ℕ → Bool) (trials bs : ℕ)
    (htr : 0 < trials) (hbs : 0 < bs) :
    piRunningEstimates pts trials bs =
      (piCheckpointNs trials bs).map
        (fun e => (e, 4 * (countInside pts e : ℚ) / e)) ∧
    trials ∈ piCheckpointNs trials bs ∧
    piSeriesRunningEstimates pts trials bs =
      lastN (piRunningEstimates pts trials bs) 50 ∧
    (piSeriesRunningEstimates pts trials bs).length ≤ 50 ∧
    piSeriesRunningEstimates pts trials bs <:+ piRunningEstimates pts trials bs :=
  ⟨piRunningEstimates_eq pts trials bs,
   trials_mem_piCheckpointNs trials bs htr hbs, rfl,
   lastN_length_le _ 50, lastN_suffix _ 50⟩

/-- C3, witness: a run of 2000 points in two batches of 1000 records
checkpoints and retains them as the series. -/
theorem claim_C3_witness :
    0 < 2000 ∧
    (piRunningEstimates (fun _ => true) 2000 1000 =
      (piCheckpointNs 2000 1000).map
        (fun e => (e, 4 * (countInside (fun _ => true) e : ℚ) / e)) ∧
    2000 ∈ piCheckpointNs 2000 1000 ∧
    piSeriesRunningEstimates (fun _ => true) 2000 1000 =
      lastN (piRunningEstimates (fun _ => true) 2000 1000) 50 ∧
    (piSeriesRunningEstimates (fun _ => true) 2000 1000).length ≤ 50 ∧
    piSeriesRunningEstimates (fun _ => true) 2000 1000 <:+
      piRunningEstimates (fun _ => true) 2000 1000) :=
  ⟨by decide, claim_C3_amended (fun _ => true) 2000 1000 (by decide) (by decide)⟩

/-- C5: determinism/purity.  In the embedding, a simulation instance's
entire random state is the stream constructed by `mkRng` from the seed
(mirroring `BaseSimulation.__init__`, which stores a fresh
`np.random.default_rng(seed)` per instance and shares nothing across
instances), and every run result is a pure function of that stream and the
parameters.  Two invocations on instances freshly constructed from the
same seed therefore produce identical metrics for every variant: the
Pi-Estimation loop state and final estimate, the CLT sample means, the
Bag-Draw outcome sequences, and the (randomness-free) t-test and z-test
statistics. -/
theorem claim_C5 (seed1 seed2 : ℕ) (h : seed1 = seed2) :
    ∀ (trials bs : ℕ) (a b : ℚ) (numSamples sampleSize : ℕ)
      (bag : List String) (draws btrials : ℕ) (m mu0 s : ℚ) (nt : ℕ)
      (succ nz : ℕ) (z : ℝ),
      piLoop (ptsOfRng (mkRng seed1)) trials bs =
        piLoop (ptsOfRng (mkRng seed2)) trials bs ∧
      piFinalEstimate (ptsOfRng (mkRng seed1)) trials =
        piFinalEstimate (ptsOfRng (mkRng seed2)) trials ∧
      cltSampleMeans (cltSamplesOf (mkRng seed1) a b numSamples sampleSize) =
        cltSampleMeans (cltSamplesOf (mkRng seed2) a b numSamples sampleSize) ∧
      bagOutcomesOf (mkRng seed1) bag draws btrials =
        bagOutcomesOf (mkRng seed2) bag draws btrials ∧
      tStatistic m mu0 s nt = tStatistic m mu0 s nt ∧
      (wilsonLower succ nz z, wilsonUpper succ nz z) =
        (wilsonLower succ nz z, wilsonUpper succ nz z) := by
  subst h
  intros
  exact ⟨rfl, rfl, rfl, rfl, rfl, rfl⟩

/-- C5, witness: two fresh instances seeded with 42 agree on the
Pi-Estimation estimate of a 10-point run. -/
theorem claim_C5_witness :
    42 = 42 ∧
    piFinalEstimate (ptsOfRng (mkRng 42)) 10 =
      piFinalEstimate (ptsOfRng (mkRng 42)) 10 :=
  ⟨rfl, (claim_C5 42 42 rfl 10 10 0 1 2 3 [] 1 1 0 0 1 2 3 4 0).2.1⟩

/-- C9: for every valid input (`0 < n`, `successes ≤ n`) and every
nonnegative critical value `z = Φ⁻¹(1 - α/2)` (nonnegative exactly when
`α ≤ 1`), the clamped Wilson interval satisfies
`0 ≤ ci_lower ≤ ci_upper ≤ 1`: the interval always lies within the unit
interval and is never inverted. -/
theorem claim_C9 (successes n : ℕ) (z : ℝ) (hn : 0 < n)
    (hsn : successes ≤ n) (hz : 0 ≤ z) :
    0 ≤ wilsonLower successes n z ∧
    wilsonLower successes n z ≤ wilsonUpper successes n z ∧
    wilsonUpper successes n z ≤ 1 := by
  have hnR : (0:ℝ) < n := by exact_mod_cast hn
  have hp0 : 0 ≤ (pHat successes n : ℝ) := by
    unfold pHat
    push_cast
    positivity
  have hp1 : (pHat successes n : ℝ) ≤ 1 := by
    unfold pHat
    push_cast
    rw [div_le_one hnR]
    exact_mod_cast hsn
  have hden : (0:ℝ) < 1 + z^2/n := by positivity
  have hm : 0 ≤ wilsonMargin successes n z := by
    unfold wilsonMargin
    exact div_nonneg (mul_nonneg hz (Real.sqrt_nonneg _)) hden.le
  have hc0 : 0 ≤ wilsonCenter successes n z := by
    unfold wilsonCenter
    apply div_nonneg _ hden.le
    have h2 : (0:ℝ) ≤ z^2/(2*n) := by positivity
    linarith
  have hc1 : wilsonCenter successes n z ≤ 1 := by
    unfold wilsonCenter
    rw [div_le_one hden]
    have h2 : z^2/(2*n) ≤ z^2/n := by
      gcongr
      linarith
    linarith
  refine ⟨le_max_left _ _, ?_, min_le_left _ _⟩
  unfold wilsonLower wilsonUpper
  apply max_le
  · exact le_min (by norm_num) (by linarith)
  · exact le_min (by linarith) (by linarith)

/-- C9, witness: the interval for 50 successes out of 100 at `z = 2`. -/
theorem claim_C9_witness :
    (50 ≤ 100 ∧ (0:ℝ) ≤ 2) ∧
    (0 ≤ wilsonLower 50 100 2 ∧
     wilsonLower 50 100 2 ≤ wilsonUpper 50 100 2 ∧
     wilsonUpper 50 100 2 ≤ 1) :=
  ⟨⟨by decide, zero_le_two⟩, claim_C9 50 100 2 (by decide) (by decide) zero_le_two⟩

/-- C7: for the CLT sampler with `distribution="uniform"`,
`dist_params={a:0, b:10}`, `sample_size=30`: the `theoretical_mean` metric
is 5, the `theoretical_se` metric is `round(√(((10-0)²/12)/30), 6) =
0.527046`, and for `num_samples = 500` rows of draws the `sample_means`
series has length `min(num_samples, 1000) = 500`. -/
theorem claim_C7 :
    cltTheoreticalMeanMetric (cltUniformMean 0 10) = 5 ∧
    cltTheoreticalSEMetric (cltUniformVar 0 10) 30 = 527046/1000000 ∧
    (∀ samples : List (List ℚ), samples.length = 500 →
      (cltSeriesSampleMeans samples).length = min 500 1000) := by
  refine ⟨?_, ?_, ?_⟩
  · norm_num [cltTheoreticalMeanMetric, cltUniformMean, pyRoundQ, pyRoundInt,
      Int.fract]
  · have hx : cltTheoreticalSE (cltUniformVar 0 10) 30 = Real.sqrt (5/18) := by
      unfold cltTheoreticalSE cltUniformVar
      norm_num
    set s := Real.sqrt (5/18) with hs
    have hlb : (527046/10^6 : ℝ) ≤ s :=
      (Real.le_sqrt (by norm_num) (by norm_num)).mpr (by norm_num)
    have hub : s < 5270465/10^7 :=
      (Real.sqrt_lt' (by norm_num)).mpr (by norm_num)
    have hlb6 : (527046 : ℝ) ≤ s * 10^6 := by
      have := mul_le_mul_of_nonneg_right hlb (by norm_num : (0:ℝ) ≤ 10^6)
      calc (527046 : ℝ) = 527046/10^6 * 10^6 := by norm_num
      _ ≤ s * 10^6 := this
    have hub6 : s * 10^6 < 527046 + 1/2 := by
      have := mul_lt_mul_of_pos_right hub (by norm_num : (0:ℝ) < 10^6)
      calc s * 10^6 < 5270465/10^7 * 10^6 := this
      _ = 527046 + 1/2 := by norm_num
    have hfloor : ⌊s * 10^6⌋ = 527046 :=
      Int.floor_eq_iff.mpr ⟨by push_cast; linarith, by push_cast; linarith⟩
    have hfract : Int.fract (s * 10^6) ≠ 1/2 := by
      unfold Int.fract
      rw [hfloor]
      intro hcontra
      push_cast at hcontra
      linarith
    have hround : round (s * 10^6) = 527046 := by
      rw [round_eq]
      exact Int.floor_eq_iff.mpr ⟨by push_cast; linarith, by push_cast; linarith⟩
    unfold cltTheoreticalSEMetric pyRoundR pyRoundIntR
    rw [hx, if_neg hfract, hround]
    norm_num
  · intro samples h
    unfold cltSeriesSampleMeans cltSampleMeans
    rw [List.length_take, List.length_map, h]
    omega

/-- C7, witness: the series-length conjunct applied to a concrete list of
500 rows. -/
theorem claim_C7_witness :
    (List.replicate 500 ([] : List ℚ)).length = 500 ∧
    (cltSeriesSampleMeans (List.replicate 500 [])).length = min 500 1000 :=
  ⟨List.length_replicate 500 [], claim_C7.2.2 (List.replicate 500 [])
    (List.length_replicate 500 [])⟩

end DataLiteracy
